import Mathlib

/-!
# ScholarStream discovery & matching pipeline — a shallow embedding

This file embeds the core of the ScholarStream backend
(`src/backend/app/...`) in Lean 4 and proves/refutes the frozen claims
about it.  Python floats are modelled as rationals (`ℚ`), Python ints as
`ℤ`/`ℕ`, Python dictionaries with possibly-missing keys as structures of
`Option`-typed fields, and raised exceptions as `Except`/error values.
Wall-clock time is an explicit parameter (integer seconds).  Python's
`str.lower` is modelled on ASCII (all strings the code compares are ASCII).
-/

set_option maxHeartbeats 1000000

namespace ScholarStream

/-! ## Python string primitives, modelled on the character list of a string -/

/-- Python `str.lower()` (ASCII). -/
def pyLower (s : String) : String := ⟨s.data.map Char.toLower⟩

/-- Python `needle in hay` on strings: substring containment. -/
def pyContains (hay needle : String) : Bool :=
  (List.range (hay.data.length + 1)).any fun i => needle.data.isPrefixOf (hay.data.drop i)

/-- Python `s.strip()`: drop whitespace from both ends. -/
def pyStrip (s : String) : String :=
  ⟨((s.data.dropWhile Char.isWhitespace).reverse.dropWhile Char.isWhitespace).reverse⟩

/-- Python `s.startswith(p)`. -/
def pyStartsWith (s p : String) : Bool := p.data.isPrefixOf s.data

/-- Python `s.endswith(p)`. -/
def pyEndsWith (s p : String) : Bool := p.data.isSuffixOf s.data

/-- Python `s[n:]`. -/
def pyDrop (s : String) (n : Nat) : String := ⟨s.data.drop n⟩

/-- Python `s[:-n]` for `n ≤ len(s)`. -/
def pyDropRight (s : String) (n : Nat) : String := ⟨s.data.take (s.data.length - n)⟩

/-- Python `s.capitalize()`: first character upper-cased, the rest lower-cased
(ASCII). -/
def pyCapitalize (s : String) : String :=
  match s.data with
  | [] => ""
  | c :: cs => ⟨c.toUpper :: cs.map Char.toLower⟩

/-- Python truthiness of an optional string (`None` and `""` are falsy). -/
def truthyStr : Option String → Bool
  | none => false
  | some s => !(s = "")

/-- Python truthiness of an optional number (`None` and `0` are falsy). -/
def truthyNum : Option ℚ → Bool
  | none => false
  | some q => !(q = 0)

/-- Python truthiness of an optional list (`None` and `[]` are falsy). -/
def truthyList : Option (List String) → Bool
  | none => false
  | some l => !l.isEmpty

/-- Python `a or b` for an optional list `a` with fallback `b`
(`a` is kept only when it is truthy). -/
def pyOrList (a : Option (List String)) (b : List String) : List String :=
  match a with
  | some l => if l.isEmpty then b else l
  | none => b

/-! ## Data model (`models.py`)

`ScholarshipEligibility` and `ScholarshipRequirements` keep the field
defaults of the pydantic models.  `Scholarship` keeps the fields the
pipeline logic reads or the claims mention; the display-only string fields
(`amount_display`, `estimated_time`, `logo_url`, the two timestamps,
`expected_value`) are clock/formatting outputs no claim depends on and are
not modelled. -/

structure ScholarshipEligibility where
  gpa_min : Option ℚ := none
  grades_eligible : List String := []
  majors : Option (List String) := none
  gender : Option String := none
  citizenship : Option String := none
  backgrounds : List String := []
  states : Option (List String) := none
deriving DecidableEq, Repr

structure ScholarshipRequirements where
  essay : Bool := false
  essay_prompts : List String := []
  recommendation_letters : Nat := 0
  transcript : Bool := false
  resume : Bool := false
  other : List String := []
deriving DecidableEq, Repr

structure Scholarship where
  id : String
  name : String
  organization : String
  amount : ℚ
  deadline : String
  deadline_type : String
  eligibility : ScholarshipEligibility
  requirements : ScholarshipRequirements
  match_score : ℚ
  match_tier : String
  priority_level : String
  tags : List String
  description : String
  competition_level : String
  source_url : String
  source_type : String
deriving DecidableEq, Repr

structure UserProfile where
  name : String
  academic_status : String
  school : Option String := none
  year : Option String := none
  gpa : Option ℚ := none
  major : Option String := none
  graduation_year : Option String := none
  background : List String := []
  financial_need : Option ℚ := none
  interests : List String := []
deriving DecidableEq, Repr

/-! ## Raw opportunities (the scraper-output dictionaries)

A value of a key the Python dicts may carry either as a string or as a
list of strings. -/

inductive StrOrList where
  | str (s : String)
  | list (l : List String)
deriving DecidableEq, Repr

structure RawEligibility where
  gpa_min : Option ℚ := none
  grades_eligible : Option (List String) := none
  grade_levels : Option (List String) := none
  majors : Option (List String) := none
  gender : Option String := none
  citizenship : Option StrOrList := none
  backgrounds : Option (List String) := none
  states : Option (List String) := none
deriving DecidableEq, Repr

structure RawRequirements where
  essay : Option Bool := none
  essay_required : Option Bool := none
  essay_prompts : Option (List String) := none
  recommendation_letters : Option Nat := none
  transcript : Option Bool := none
  resume : Option Bool := none
  other : Option StrOrList := none
  other_documents : Option StrOrList := none
  skills_needed : Option (List String) := none
deriving DecidableEq, Repr

structure RawOpportunity where
  type : Option String := none
  name : Option String := none
  organization : Option String := none
  amount : Option ℚ := none
  amount_display : Option String := none
  deadline : Option String := none
  deadline_type : Option String := none
  url : Option String := none
  source_url : Option String := none
  description : Option String := none
  urgency : Option String := none
  eligibility : Option RawEligibility := none
  requirements : Option RawRequirements := none
  tags : Option StrOrList := none
  competition_level : Option String := none
  discovered_by : Option String := none
  curated : Option Bool := none
deriving DecidableEq, Repr

/-! ## Aggregator / deduplicator (`scraper_service.py`)

`OpportunityScraperService` defines `_deduplicate` twice; Python binds the
later definition (lines 404–415), whose key lower-cases both parts, so that
is the method every call resolves to. -/

/-- `f"{opp.get('name', '').lower()}_{opp.get('organization', '').lower()}"` -/
def dedupKey (o : RawOpportunity) : String :=
  pyLower (o.name.getD "") ++ "_" ++ pyLower (o.organization.getD "")

/-- The loop of `_deduplicate`: `seen` is the set of keys already kept. -/
def deduplicateAux (seen : List String) : List RawOpportunity → List RawOpportunity
  | [] => []
  | o :: rest =>
    let key := dedupKey o
    if seen.contains key then deduplicateAux seen rest
    else o :: deduplicateAux (key :: seen) rest

/-- `_deduplicate` (scraper_service.py lines 404–415): keep the first
occurrence of every `name_organization` key, lower-cased. -/
def deduplicate (opportunities : List RawOpportunity) : List RawOpportunity :=
  deduplicateAux [] opportunities

/-- Outcome of one adapter's `scrape()` under
`asyncio.gather(..., return_exceptions=True)`: either the returned list or
the exception object. -/
inductive AdapterOutcome where
  | ok (l : List RawOpportunity)
  | exn (msg : String)
deriving DecidableEq, Repr

/-- `discover_all_opportunities` (scraper_service.py lines 54–99) after the
gather join: `results` holds one outcome per adapter in registration order
(Devpost, MLH, Gitcoin, Kaggle, Scholarships); list results are
concatenated in that order, exceptions are logged and skipped, and the
concatenation is deduplicated. -/
def discover_all_opportunities (results : List AdapterOutcome) : List RawOpportunity :=
  let all_opportunities := results.foldl
    (fun acc r => match r with
      | .ok l => acc ++ l
      | .exn _ => acc) []
  deduplicate all_opportunities

/-! ### Lemmas about deduplication -/

theorem deduplicateAux_sublist (seen : List String) (l : List RawOpportunity) :
    (deduplicateAux seen l).Sublist l := by
  induction l generalizing seen with
  | nil => simp [deduplicateAux]
  | cons o rest ih =>
    simp only [deduplicateAux]
    split
    · exact (ih seen).cons o
    · exact (ih (dedupKey o :: seen)).cons₂ o

theorem deduplicateAux_not_seen (seen : List String) (l : List RawOpportunity) :
    ∀ o ∈ deduplicateAux seen l, dedupKey o ∉ seen := by
  induction l generalizing seen with
  | nil => simp [deduplicateAux]
  | cons p rest ih =>
    intro o ho
    simp only [deduplicateAux] at ho
    split at ho
    · exact ih seen o ho
    · rcases List.mem_cons.mp ho with h | h
      · subst h
        simpa using (by assumption : ¬ (seen.contains (dedupKey o) = true))
      · intro hmem
        exact ih _ o h (List.mem_cons_of_mem _ hmem)

theorem deduplicateAux_nodup_keys (seen : List String) (l : List RawOpportunity) :
    ((deduplicateAux seen l).map dedupKey).Nodup := by
  induction l generalizing seen with
  | nil => simp [deduplicateAux]
  | cons o rest ih =>
    simp only [deduplicateAux]
    split
    · exact ih seen
    · refine List.nodup_cons.mpr ⟨?_, ih (dedupKey o :: seen)⟩
      intro hmem
      rcases List.mem_map.mp hmem with ⟨p, hp, hkey⟩
      exact deduplicateAux_not_seen _ _ p hp (by simp [hkey])

theorem deduplicateAux_key_covered (seen : List String) (l : List RawOpportunity) :
    ∀ o ∈ l, dedupKey o ∉ seen → dedupKey o ∈ (deduplicateAux seen l).map dedupKey := by
  induction l generalizing seen with
  | nil => simp
  | cons p rest ih =>
    intro o ho hns
    rcases List.mem_cons.mp ho with h | h
    · subst h
      simp only [deduplicateAux]
      split
      · exact absurd (by simpa using (by assumption : (seen.contains (dedupKey o)) = true)) hns
      · simp
    · simp only [deduplicateAux]
      split
      · exact ih seen o h hns
      · by_cases hk : dedupKey o = dedupKey p
        · simp [hk]
        · have := ih (dedupKey p :: seen) o h (by
            intro hmem
            rcases List.mem_cons.mp hmem with h' | h'
            · exact hk h'
            · exact hns h')
          simpa using Or.inr this

theorem deduplicateAux_first_wins (seen : List String) (l : List RawOpportunity) :
    ∀ o ∈ deduplicateAux seen l,
      l.find? (fun x => dedupKey x == dedupKey o) = some o := by
  induction l generalizing seen with
  | nil => simp [deduplicateAux]
  | cons p rest ih =>
    intro o ho
    simp only [deduplicateAux] at ho
    by_cases hc : seen.contains (dedupKey p) = true
    · rw [if_pos hc] at ho
      have hpmem : dedupKey p ∈ seen := by simpa using hc
      have hne : dedupKey p ≠ dedupKey o := by
        intro h
        exact deduplicateAux_not_seen seen rest o ho (h ▸ hpmem)
      rw [List.find?_cons_of_neg _ (by simp [hne])]
      exact ih seen o ho
    · rw [if_neg hc] at ho
      rcases List.mem_cons.mp ho with h | h
      · subst h
        exact List.find?_cons_of_pos _ (by simp)
      · have hne : dedupKey p ≠ dedupKey o := by
          intro hk
          exact deduplicateAux_not_seen _ rest o h (by simp [hk])
        rw [List.find?_cons_of_neg _ (by simp [hne])]
        exact ih (dedupKey p :: seen) o h

theorem foldl_collect_eq_flatten (results : List AdapterOutcome) (init : List RawOpportunity) :
    results.foldl
      (fun acc r => match r with
        | .ok l => acc ++ l
        | .exn _ => acc) init
    = init ++ (results.filterMap
        (fun r => match r with
          | .ok l => some l
          | .exn _ => none)).flatten := by
  induction results generalizing init with
  | nil => simp
  | cons r rest ih =>
    cases r with
    | ok l => simp [List.foldl_cons, ih, List.filterMap_cons]
    | exn m => simp [List.foldl_cons, ih, List.filterMap_cons]

/-! ## Scoring engine (`matching_service.py`)

`_score_urgency` compares the parsed deadline with `datetime.now()`; the
external datetime library is modelled by an environment giving, for a
deadline string, the number of days until it (`none` when
`datetime.fromisoformat` raises `ValueError`). -/

structure Env where
  daysUntil : String → Option ℤ

/-- `_score_eligibility` (matching_service.py lines 166–196).  Python
truthiness guards the GPA and major checks (`None`, `0`, `""` and `[]` are
falsy). -/
def score_eligibility (opp : Scholarship) (profile : UserProfile) : ℚ :=
  let score : ℚ := 1
  let score :=
    if truthyNum opp.eligibility.gpa_min && truthyNum profile.gpa &&
        decide (profile.gpa.getD 0 < opp.eligibility.gpa_min.getD 0) then
      score * (3/10)
    else score
  if !opp.eligibility.grades_eligible.isEmpty &&
      !(opp.eligibility.grades_eligible.contains profile.academic_status) then 0
  else
    let score :=
      if truthyList opp.eligibility.majors && truthyStr profile.major &&
          !((opp.eligibility.majors.getD []).any fun major =>
              pyContains (pyLower (profile.major.getD "")) (pyLower major)) then
        score * (6/10)
      else score
    score

/-- `_score_interests` (matching_service.py lines 198–219): Jaccard
similarity of the lower-cased interest and tag sets, +0.3 for an exact
major/tag match, capped at 1. -/
def score_interests (opp : Scholarship) (profile : UserProfile) : ℚ :=
  if profile.interests.isEmpty || opp.tags.isEmpty then 1/2
  else
    let user_interests := (profile.interests.map pyLower).dedup
    let opp_tags := (opp.tags.map pyLower).dedup
    let intersection := (user_interests.filter fun i => opp_tags.contains i).length
    let union := (user_interests ++ opp_tags.filter fun t => !user_interests.contains t).length
    if union = 0 then 1/2
    else
      let similarity : ℚ := (intersection : ℚ) / (union : ℚ)
      let similarity :=
        if truthyStr profile.major &&
            (opp.tags.map pyLower).contains (pyLower (profile.major.getD "")) then
          similarity + 3/10
        else similarity
      min similarity 1

/-- `_score_urgency` (matching_service.py lines 221–240). -/
def score_urgency (env : Env) (opp : Scholarship) : ℚ :=
  match env.daysUntil opp.deadline with
  | none => 1/2
  | some days_until_deadline =>
    if 7 ≤ days_until_deadline ∧ days_until_deadline ≤ 60 then 1
    else if days_until_deadline < 7 ∧ 0 ≤ days_until_deadline then 8/10
    else if days_until_deadline < 0 then 0
    else 1/2

/-- `_score_value` (matching_service.py lines 242–260). -/
def score_value (opp : Scholarship) (profile : UserProfile) : ℚ :=
  if !truthyNum profile.financial_need then 1/2
  else if profile.financial_need.getD 0 = 0 then 1/2
  else
    let value_ratio := min (opp.amount / profile.financial_need.getD 0) 1
    if 8/10 ≤ value_ratio then 1
    else if 5/10 ≤ value_ratio then 8/10
    else if 2/10 ≤ value_ratio then 6/10
    else 4/10

/-- `_estimate_effort` (matching_service.py lines 274–290). -/
def estimate_effort (opp : Scholarship) : ℚ :=
  let hours : ℚ := 2
  let hours :=
    if opp.requirements.essay then hours + opp.requirements.essay_prompts.length * 3 else hours
  let hours :=
    if 0 < opp.requirements.recommendation_letters then
      hours + opp.requirements.recommendation_letters * 1
    else hours
  let hours := if opp.requirements.transcript then hours + 1/2 else hours
  let hours := if opp.requirements.resume then hours + 1 else hours
  hours

/-- `_score_effort` (matching_service.py lines 262–272); the profile
argument is unused by the source too. -/
def score_effort (opp : Scholarship) (_profile : UserProfile) : ℚ :=
  let effort_hours := estimate_effort opp
  if effort_hours ≤ 5 then 1
  else if effort_hours ≤ 10 then 8/10
  else 1/2

/-- Python `round(x, 2)`: round to 2 decimal places, ties to even. -/
def pyRound2 (q : ℚ) : ℚ :=
  let scaled := q * 100
  let fl := ⌊scaled⌋
  let frac := scaled - (fl : ℚ)
  let n : ℤ :=
    if frac < 1/2 then fl
    else if 1/2 < frac then fl + 1
    else if fl % 2 = 0 then fl
    else fl + 1
  (n : ℚ) / 100

/-- `calculate_match_score` (matching_service.py lines 129–164): weighted
sum with a hard gate on the eligibility component. -/
def calculate_match_score (env : Env) (opportunity : Scholarship) (profile : UserProfile) : ℚ :=
  let eligibility_score := score_eligibility opportunity profile
  if eligibility_score < 1/2 then 0
  else
    let score := eligibility_score * 30
    let score := score + score_interests opportunity profile * 25
    let score := score + score_urgency env opportunity * 20
    let score := score + score_value opportunity profile * 15
    let score := score + score_effort opportunity profile * 10
    pyRound2 score

/-- The per-opportunity mutation inside `_filter_and_rank`
(matching_service.py lines 302–314): recompute the score and assign the
tier from it. -/
def rescore (env : Env) (profile : UserProfile) (opp : Scholarship) : Scholarship :=
  let s := calculate_match_score env opp profile
  { opp with
    match_score := s
    match_tier :=
      if 85 ≤ s then "Excellent"
      else if 70 ≤ s then "Good"
      else if 50 ≤ s then "Fair"
      else "Poor" }

/-- `_filter_and_rank` (matching_service.py lines 292–321): rescore every
opportunity, keep those with positive score, sort by score descending
(Python's `sorted` is stable). -/
def filter_and_rank (env : Env) (opportunities : List Scholarship) (profile : UserProfile) :
    List Scholarship :=
  let eligible := (opportunities.map (rescore env profile)).filter fun o => 0 < o.match_score
  eligible.mergeSort fun a b => b.match_score ≤ a.match_score

/-! ## Canonical converter (`opportunity_converter.py`)

The converter's own names clash with the matching service's, so they live
in their own namespace.  In the typed embedding the raw dictionary fields
already carry their expected types, so the source's `except` branch
(reached only when a field has an unconvertible runtime type) is
unreachable and `convert_to_scholarship` is total; the fresh `uuid4` id is
a parameter. -/

/-- Python truthiness of an optional string-or-list value. -/
def truthySOL : Option StrOrList → Bool
  | none => false
  | some (.str s) => !(s = "")
  | some (.list l) => !l.isEmpty

/-- `if isinstance(x, str): x = [x]` after a string-or-list value is known. -/
def solToList : StrOrList → List String
  | .str s => [s]
  | .list l => l

/-- Python `a or b or []` on string-or-list dictionary values. -/
def pyOrSOL (a b : Option StrOrList) : StrOrList :=
  if truthySOL a then a.getD (.list [])
  else if truthySOL b then b.getD (.list [])
  else .list []

namespace OpportunityConverter

/-- `calculate_match_score` (opportunity_converter.py lines 141–185): base
60, bonuses for GPA, major, skills and urgency, capped at 99. -/
def calculate_match_score (opp_data : RawOpportunity) (user_profile : UserProfile) : ℤ :=
  let score : ℤ := 60
  let eligibility := opp_data.eligibility.getD {}
  let opp_type := opp_data.type.getD "scholarship"
  let score :=
    if truthyNum eligibility.gpa_min && truthyNum user_profile.gpa then
      if eligibility.gpa_min.getD 0 ≤ user_profile.gpa.getD 0 then score + 15
      else if eligibility.gpa_min.getD 0 - 1/5 ≤ user_profile.gpa.getD 0 then score + 5
      else score
    else score
  let required_majors := eligibility.majors.getD []
  let score :=
    if !required_majors.isEmpty && truthyStr user_profile.major then
      if required_majors.any (fun major =>
          pyContains (pyLower (user_profile.major.getD "")) (pyLower major)) then
        score + 20
      else if required_majors.contains "STEM" &&
          (["Computer", "Engineering", "Science", "Math"].any fun stem =>
            pyContains (user_profile.major.getD "") stem) then
        score + 15
      else score
    else if required_majors.isEmpty then score + 10
    else score
  let score :=
    if opp_type = "hackathon" ∨ opp_type = "bounty" then
      let required_skills := (opp_data.requirements.getD {}).skills_needed.getD []
      let user_skills := user_profile.interests
      if !required_skills.isEmpty && !user_skills.isEmpty then
        let matching_skills := required_skills.filter fun s =>
          user_skills.any fun us => pyContains (pyLower s) (pyLower us)
        if !matching_skills.isEmpty then score + 20 else score
      else score
    else score
  let urgency := opp_data.urgency.getD "future"
  let score :=
    if urgency = "immediate" then score + 10
    else if urgency = "this_week" then score + 5
    else score
  min score 99

/-- `determine_match_tier` (opportunity_converter.py lines 188–197).  Note
the source's `Fair` cutoff here is 55, not the spec's 50. -/
def determine_match_tier (score : ℤ) : String :=
  if 85 ≤ score then "Excellent"
  else if 70 ≤ score then "Good"
  else if 55 ≤ score then "Fair"
  else "Poor"

/-- `determine_priority` (opportunity_converter.py lines 200–212). -/
def determine_priority (opp_data : RawOpportunity) (match_score : ℤ) : String :=
  let urgency := pyLower (opp_data.urgency.getD "")
  let amount : ℚ := opp_data.amount.getD 0
  if urgency = "immediate" ∧ 70 ≤ match_score then "URGENT"
  else if urgency = "this_week" ∨ urgency = "immediate" ∨ 10000 ≤ amount then "HIGH"
  else if 5000 ≤ amount ∨ 80 ≤ match_score then "MEDIUM"
  else "LOW"

/-- `map_type_to_source` (opportunity_converter.py lines 215–219). -/
def map_type_to_source (_opp_type : String) : String := "scraped"

/-- `convert_to_scholarship` (opportunity_converter.py lines 29–138),
without the display-only formatted fields (`amount_display`,
`estimated_time`, `expected_value`, timestamps). -/
def convert_to_scholarship (idStr : String) (opp_data : RawOpportunity)
    (user_profile : UserProfile) : Scholarship :=
  let match_score := calculate_match_score opp_data user_profile
  let match_tier := determine_match_tier match_score
  let priority_level := determine_priority opp_data match_score
  let eligibility_raw := opp_data.eligibility.getD {}
  let grades_eligible :=
    pyOrList eligibility_raw.grades_eligible (pyOrList eligibility_raw.grade_levels [])
  let majors : Option (List String) :=
    match eligibility_raw.majors with
    | some l => if l.isEmpty then none else some l
    | none => none
  let citizenship : Option String :=
    match eligibility_raw.citizenship with
    | some (.list l) => some (String.intercalate "/" l)
    | some (.str s) => some s
    | none => none
  let eligibility : ScholarshipEligibility :=
    { gpa_min := eligibility_raw.gpa_min
      grades_eligible := grades_eligible
      majors := majors
      gender := eligibility_raw.gender
      citizenship := citizenship
      backgrounds := eligibility_raw.backgrounds.getD []
      states := eligibility_raw.states }
  let requirements_raw := opp_data.requirements.getD {}
  let essay_bool := requirements_raw.essay.getD false || requirements_raw.essay_required.getD false
  let requirements : ScholarshipRequirements :=
    { essay := essay_bool
      essay_prompts := requirements_raw.essay_prompts.getD []
      recommendation_letters := requirements_raw.recommendation_letters.getD 0
      transcript := requirements_raw.transcript.getD false
      resume := requirements_raw.resume.getD false
      other := solToList (pyOrSOL requirements_raw.other requirements_raw.other_documents) }
  let amount : ℚ := opp_data.amount.getD 0
  let deadline := opp_data.deadline.getD ""
  let raw_deadline_type := pyLower (opp_data.deadline_type.getD "")
  let deadline_type := if deadline = "" ∨ raw_deadline_type = "rolling" then "rolling" else "fixed"
  let description := opp_data.description.getD ""
  let tags :=
    if truthySOL opp_data.tags then solToList (opp_data.tags.getD (.list [])) else []
  let competition_level_raw := pyCapitalize (opp_data.competition_level.getD "Medium")
  let competition_level :=
    if ["Low", "Medium", "High"].contains competition_level_raw then competition_level_raw
    else "Medium"
  let source_url :=
    if truthyStr opp_data.source_url then opp_data.source_url.getD ""
    else opp_data.url.getD ""
  let source_type := map_type_to_source (opp_data.type.getD "scholarship")
  let source_type :=
    if pyLower (opp_data.discovered_by.getD "") = "ai" then "ai_discovered" else source_type
  let source_type := if opp_data.curated.getD false then "curated" else source_type
  { id := idStr
    name := opp_data.name.getD "Untitled Opportunity"
    organization := opp_data.organization.getD "Unknown"
    amount := amount
    deadline := deadline
    deadline_type := deadline_type
    eligibility := eligibility
    requirements := requirements
    match_score := (match_score : ℚ)
    match_tier := match_tier
    priority_level := priority_level
    tags := tags
    description := description
    competition_level := competition_level
    source_url := source_url
    source_type := source_type }

end OpportunityConverter

/-! ## AI enrichment service (`ai_service.py`)

Modelled on the in-memory path (`upstash_redis` not configured, as the
constructor's fallback).  Wall-clock time is integer seconds; the Gemini
call and `hashlib.md5` are external, so the model's response text and the
cache key are parameters. -/

structure AIEnrichmentResponse where
  eligibility : ScholarshipEligibility
  requirements : ScholarshipRequirements
  tags : List String
  match_score : ℚ
  match_tier : String
  priority_level : String
  competition_level : String
  estimated_time : String
deriving DecidableEq, Repr

/-- The code-fence stripping of `_parse_ai_response` (ai_service.py lines
232–241). -/
def stripCodeFences (response_text : String) : String :=
  let clean_text := pyStrip response_text
  let clean_text := if pyStartsWith clean_text "```json" then pyDrop clean_text 7 else clean_text
  let clean_text := if pyStartsWith clean_text "```" then pyDrop clean_text 3 else clean_text
  let clean_text := if pyEndsWith clean_text "```" then pyDropRight clean_text 3 else clean_text
  pyStrip clean_text

/-- The fallback value built in the `except` branch of `_parse_ai_response`
(ai_service.py lines 261–270): pydantic defaults for eligibility and
requirements, score 50, tier Fair, priority MEDIUM. -/
def defaultEnrichment : AIEnrichmentResponse :=
  { eligibility := {}
    requirements := {}
    tags := []
    match_score := 50
    match_tier := "Fair"
    priority_level := "MEDIUM"
    competition_level := "Medium"
    estimated_time := "2-3 hours" }

/-- `_parse_ai_response` (ai_service.py lines 229–270).  `json.loads` plus
the pydantic construction are the external standard library; they are the
`decode` parameter, returning `none` exactly when that part of the
try-block raises. -/
def parse_ai_response (decode : String → Option AIEnrichmentResponse)
    (response_text : String) : AIEnrichmentResponse :=
  match decode (stripCodeFences response_text) with
  | some r => r
  | none => defaultEnrichment

/-- Python dict assignment `d[k] = v`: replace the binding in place, or
append a new one. -/
def dictSet {α : Type} (k : String) (v : α) : List (String × α) → List (String × α)
  | [] => [(k, v)]
  | (k', v') :: rest => if k' = k then (k, v) :: rest else (k', v') :: dictSet k v rest

structure RateLimiterState where
  count : Nat
  window_start : ℤ
  limit : Nat
deriving DecidableEq, Repr

/-- `_check_rate_limit` (ai_service.py lines 80–128), in-memory fallback
path: reset the window after an hour, refuse at the cap, else count the
call. -/
def check_rate_limit (now : ℤ) (rl : RateLimiterState) : Bool × RateLimiterState :=
  let rl :=
    if 3600 < now - rl.window_start then { rl with count := 0, window_start := now } else rl
  if rl.limit ≤ rl.count then (false, rl)
  else (true, { rl with count := rl.count + 1 })

structure CacheEntry where
  value : AIEnrichmentResponse
  cached_time : ℤ
deriving DecidableEq, Repr

structure AIServiceState where
  memory_cache : List (String × CacheEntry)
  rate_limiter : RateLimiterState
  /-- Instrumentation: how many times `self.model.generate_content` (the
  Generative Text Port) has been invoked. -/
  generate_calls : Nat
deriving DecidableEq, Repr

/-- `_get_cached_enrichment` (ai_service.py lines 277–299), memory path;
`cache_age_hours < ttl` over integer seconds. -/
def get_cached_enrichment (now ttl_hours : ℤ) (cache : List (String × CacheEntry))
    (cache_key : String) : Option AIEnrichmentResponse :=
  match cache.lookup cache_key with
  | some e => if (now - e.cached_time) / 3600 < ttl_hours then some e.value else none
  | none => none

/-- `enrich_scholarship` (ai_service.py lines 130–166): cache hit
short-circuits; a refused rate-limit check returns `None` without touching
the model; otherwise the model is called, the response parsed and cached
(`_cache_enrichment`, lines 301–320, memory path). -/
def enrich_scholarship (now ttl_hours : ℤ)
    (decode : String → Option AIEnrichmentResponse)
    (cache_key response_text : String)
    (st : AIServiceState) : Option AIEnrichmentResponse × AIServiceState :=
  match get_cached_enrichment now ttl_hours st.memory_cache cache_key with
  | some cached_enrichment => (some cached_enrichment, st)
  | none =>
    let checked := check_rate_limit now st.rate_limiter
    let st := { st with rate_limiter := checked.2 }
    if !checked.1 then (none, st)
    else
      let st := { st with generate_calls := st.generate_calls + 1 }
      let enriched_data := parse_ai_response decode response_text
      let st := { st with
        memory_cache := dictSet cache_key ⟨enriched_data, now⟩ st.memory_cache }
      (some enriched_data, st)

/-! ## Persistence layer (`database.py`)

Firestore collections are association lists keyed by document id.
`doc_ref.set` creates or overwrites; `doc_ref.update` mutates an existing
document and raises for a missing one. -/

structure JobRecord where
  user_id : String
  status : String
  progress : ℚ
  scholarships_found : Nat
deriving DecidableEq, Repr

structure Database where
  scholarships : List (String × Scholarship)
  user_matches : List (String × List String)
  discovery_jobs : List (String × JobRecord)
deriving DecidableEq, Repr

/-- Every method the class `FirebaseDB` defines (database.py lines
17–479). -/
def firebaseDBMethods : List String :=
  ["get_user_profile", "update_user_profile", "save_scholarship", "get_scholarship",
   "get_all_scholarships", "get_user_matched_scholarships", "save_user_matches",
   "save_user_scholarship", "unsave_user_scholarship", "start_application",
   "save_application_draft", "get_application_draft", "submit_application",
   "get_user_applications", "get_application_by_id", "update_application_status",
   "create_discovery_job", "update_discovery_job", "get_discovery_job",
   "save_chat_message", "get_chat_history", "clear_chat_history"]

/-- `create_discovery_job` (database.py lines 371–387): `doc_ref.set` writes
status `processing`, progress 0, count 0. -/
def create_discovery_job (store : List (String × JobRecord)) (user_id job_id : String) :
    List (String × JobRecord) :=
  dictSet job_id
    { user_id := user_id, status := "processing", progress := 0, scholarships_found := 0 } store

/-- `update_discovery_job` (database.py lines 389–402): `doc_ref.update`
overwrites status, progress and count unconditionally for an existing job
document; for a missing one Firestore raises (re-raised by the except
block). -/
def update_discovery_job (store : List (String × JobRecord)) (job_id status : String)
    (progress : ℚ) (scholarships_found : Nat) : Except String (List (String × JobRecord)) :=
  match store.lookup job_id with
  | some r =>
    .ok (dictSet job_id
      { r with status := status, progress := progress, scholarships_found := scholarships_found }
      store)
  | none => .error "NotFound"

/-- `get_discovery_job` (database.py lines 404–415). -/
def get_discovery_job (store : List (String × JobRecord)) (job_id : String) : Option JobRecord :=
  store.lookup job_id

/-- `save_scholarship` (database.py lines 63–72). -/
def save_scholarship (db : Database) (scholarship : Scholarship) : Database :=
  { db with scholarships := dictSet scholarship.id scholarship db.scholarships }

/-- `save_user_matches` (database.py lines 148–160). -/
def save_user_matches (db : Database) (user_id : String) (scholarship_ids : List String) :
    Database :=
  { db with user_matches := dictSet user_id scholarship_ids db.user_matches }

/-- `get_all_scholarships` (database.py lines 88–105). -/
def get_all_scholarships (db : Database) : List Scholarship :=
  db.scholarships.map (·.2)

/-- The call `db.update_job_status(...)` issued by
`run_background_discovery` (matching_service.py lines 112 and 122).
Attribute lookup on the `FirebaseDB` instance resolves against the class's
method table, `firebaseDBMethods`, which has no `update_job_status` (the
job updater the class defines is `update_discovery_job`), so the lookup
raises `AttributeError` before anything is dispatched or written. -/
def update_job_status_call (_store : List (String × JobRecord)) (_job_id _status : String)
    (_scholarships_found : Nat) : Except String (List (String × JobRecord)) :=
  .error "AttributeError: FirebaseDB object has no attribute update_job_status"

/-! ## Discovery orchestrator (`matching_service.py`) -/

structure DiscoveryJobResponse where
  status : String
  immediate_results : List Scholarship := []
  job_id : Option String := none
  estimated_completion : Option Nat := none
  progress : Option ℚ := none
  total_found : Option Nat := none
deriving DecidableEq, Repr

/-- `start_discovery_job` (matching_service.py lines 25–70); the fresh
`uuid.uuid4()` is the parameter `job_id`.  Fast path: non-empty cache with
non-empty matches returns `completed` immediately and creates no job
record; otherwise a job record is created and `processing` returned. -/
def start_discovery_job (env : Env) (user_id job_id : String) (user_profile : UserProfile)
    (db : Database) : DiscoveryJobResponse × Database :=
  let slow_path : Database → DiscoveryJobResponse × Database := fun db =>
    ({ status := "processing", immediate_results := [], job_id := some job_id,
       estimated_completion := some 15, total_found := some 0 },
     { db with discovery_jobs := create_discovery_job db.discovery_jobs user_id job_id })
  let cached_opportunities := get_all_scholarships db
  if !cached_opportunities.isEmpty then
    let matched := filter_and_rank env cached_opportunities user_profile
    if !matched.isEmpty then
      let db := save_user_matches db user_id (matched.map (·.id))
      ({ status := "completed", immediate_results := matched.take 30, job_id := some job_id,
         estimated_completion := some 0, total_found := some matched.length }, db)
    else slow_path db
  else slow_path db

/-- `run_background_discovery` (matching_service.py lines 72–123): scrape,
convert (per-item uuid given by `mkId`), rank, persist, then update the
job.  Returns the final database and the exception escaping the task, if
any; writes made before a raise persist, as in Firestore. -/
def run_background_discovery (env : Env) (mkId : Nat → String) (job_id user_id : String)
    (user_profile : UserProfile) (adapter_results : List AdapterOutcome)
    (db : Database) : Database × Option String :=
  let raw_opportunities := discover_all_opportunities adapter_results
  let opportunities := raw_opportunities.enum.map fun p =>
    OpportunityConverter.convert_to_scholarship (mkId p.1) p.2 user_profile
  let matched_opportunities := filter_and_rank env opportunities user_profile
  let db := matched_opportunities.foldl save_scholarship db
  let db := save_user_matches db user_id (matched_opportunities.map (·.id))
  match update_job_status_call db.discovery_jobs job_id "completed"
      matched_opportunities.length with
  | .ok jobs => ({ db with discovery_jobs := jobs }, none)
  | .error _ =>
    match update_job_status_call db.discovery_jobs job_id "failed" 0 with
    | .ok jobs => ({ db with discovery_jobs := jobs }, none)
    | .error e => (db, some e)

/-- `get_job_status` (matching_service.py lines 323–334). -/
def get_job_status (db : Database) (job_id : String) : Option DiscoveryJobResponse :=
  match get_discovery_job db.discovery_jobs job_id with
  | none => none
  | some job_data =>
    some { status := job_data.status, progress := some job_data.progress,
           total_found := some job_data.scholarships_found }

/-! ## Claims -/

/-- C5: deduplication keeps exactly one entry per key
`lowercase(name) ++ "_" ++ lowercase(organization)` — the keys of the kept
entries are pairwise distinct and every input entry's key is represented —
keeping the first occurrence in input order and preserving relative order
(the output is a sublist of the input); two entries with equal keys (in
particular, differing only in letter case) collapse to the first. -/
theorem deduplicate_first_occurrence_per_key (l : List RawOpportunity) :
    ((deduplicate l).map dedupKey).Nodup ∧
    (∀ o ∈ l, dedupKey o ∈ (deduplicate l).map dedupKey) ∧
    (deduplicate l).Sublist l ∧
    (∀ o ∈ deduplicate l, l.find? (fun x => dedupKey x == dedupKey o) = some o) ∧
    (∀ o o' : RawOpportunity, dedupKey o = dedupKey o' → deduplicate [o, o'] = [o]) := by
  refine ⟨deduplicateAux_nodup_keys [] l,
    fun o ho => deduplicateAux_key_covered [] l o ho (by simp),
    deduplicateAux_sublist [] l,
    deduplicateAux_first_wins [] l,
    fun o o' h => ?_⟩
  simp [deduplicate, deduplicateAux, ← h]

/-- C6: `discover_all_opportunities` returns the deduplicated
concatenation, in adapter-registration order, of exactly the lists
returned by the adapters that succeeded; an adapter that raised
contributes nothing and does not fail the batch (the function is total on
every outcome vector). -/
theorem discover_all_opportunities_partial_failure_tolerant
    (results : List AdapterOutcome) :
    discover_all_opportunities results =
      deduplicate (results.filterMap fun r =>
        match r with
        | .ok l => some l
        | .exn _ => none).flatten ∧
    (∀ (pre post : List AdapterOutcome) (msg : String),
      discover_all_opportunities (pre ++ .exn msg :: post) =
        discover_all_opportunities (pre ++ post)) := by
  constructor
  · unfold discover_all_opportunities
    rw [foldl_collect_eq_flatten]
    simp
  · intro pre post msg
    unfold discover_all_opportunities
    rw [foldl_collect_eq_flatten, foldl_collect_eq_flatten]
    simp [List.filterMap_append, List.filterMap_cons]

/-! ### Tier boundaries (C2) -/

theorem tier_ite_boundaries (q : ℚ) :
    ((if 85 ≤ q then "Excellent" else if 70 ≤ q then "Good" else if 50 ≤ q then "Fair"
        else "Poor") = "Excellent" ↔ 85 ≤ q) ∧
    ((if 85 ≤ q then "Excellent" else if 70 ≤ q then "Good" else if 50 ≤ q then "Fair"
        else "Poor") = "Good" ↔ 70 ≤ q ∧ q < 85) ∧
    ((if 85 ≤ q then "Excellent" else if 70 ≤ q then "Good" else if 50 ≤ q then "Fair"
        else "Poor") = "Fair" ↔ 50 ≤ q ∧ q < 70) ∧
    ((if 85 ≤ q then "Excellent" else if 70 ≤ q then "Good" else if 50 ≤ q then "Fair"
        else "Poor") = "Poor" ↔ q < 50) := by
  split_ifs with h1 h2 h3 <;>
    refine ⟨?_, ?_, ?_, ?_⟩ <;> simp <;>
    first
      | linarith
      | (intro h; linarith)
      | (constructor <;> linarith)

theorem mem_filter_and_rank (env : Env) (profile : UserProfile) (opps : List Scholarship)
    (o : Scholarship) :
    o ∈ filter_and_rank env opps profile ↔
      o ∈ opps.map (rescore env profile) ∧ 0 < o.match_score := by
  unfold filter_and_rank
  rw [List.mem_mergeSort, List.mem_filter]
  simp

theorem rescore_match_score (env : Env) (profile : UserProfile) (x : Scholarship) :
    (rescore env profile x).match_score = calculate_match_score env x profile := rfl

theorem rescore_match_tier (env : Env) (profile : UserProfile) (x : Scholarship) :
    (rescore env profile x).match_tier =
      (if 85 ≤ calculate_match_score env x profile then "Excellent"
       else if 70 ≤ calculate_match_score env x profile then "Good"
       else if 50 ≤ calculate_match_score env x profile then "Fair"
       else "Poor") := rfl

/-- The GPA bonus step of the converter's `calculate_match_score`. -/
def bonusGpa (opp_data : RawOpportunity) (user_profile : UserProfile) (score : ℤ) : ℤ :=
  let eligibility := opp_data.eligibility.getD {}
  if truthyNum eligibility.gpa_min && truthyNum user_profile.gpa then
    if eligibility.gpa_min.getD 0 ≤ user_profile.gpa.getD 0 then score + 15
    else if eligibility.gpa_min.getD 0 - 1/5 ≤ user_profile.gpa.getD 0 then score + 5
    else score
  else score

/-- The major bonus step of the converter's `calculate_match_score`. -/
def bonusMajor (opp_data : RawOpportunity) (user_profile : UserProfile) (score : ℤ) : ℤ :=
  let required_majors := (opp_data.eligibility.getD {}).majors.getD []
  if !required_majors.isEmpty && truthyStr user_profile.major then
    if required_majors.any (fun major =>
        pyContains (pyLower (user_profile.major.getD "")) (pyLower major)) then
      score + 20
    else if required_majors.contains "STEM" &&
        (["Computer", "Engineering", "Science", "Math"].any fun stem =>
          pyContains (user_profile.major.getD "") stem) then
      score + 15
    else score
  else if required_majors.isEmpty then score + 10
  else score

/-- The skills bonus step of the converter's `calculate_match_score`. -/
def bonusSkills (opp_data : RawOpportunity) (user_profile : UserProfile) (score : ℤ) : ℤ :=
  if opp_data.type.getD "scholarship" = "hackathon" ∨
      opp_data.type.getD "scholarship" = "bounty" then
    let required_skills := (opp_data.requirements.getD {}).skills_needed.getD []
    if !required_skills.isEmpty && !user_profile.interests.isEmpty then
      let matching_skills := required_skills.filter fun s =>
        user_profile.interests.any fun us => pyContains (pyLower s) (pyLower us)
      if !matching_skills.isEmpty then score + 20 else score
    else score
  else score

/-- The urgency bonus step of the converter's `calculate_match_score`. -/
def bonusUrgency (opp_data : RawOpportunity) (score : ℤ) : ℤ :=
  let urgency := opp_data.urgency.getD "future"
  if urgency = "immediate" then score + 10
  else if urgency = "this_week" then score + 5
  else score

/-- The converter's score is the four bonus steps over base 60, capped at
99 (definitional regrouping of `calculate_match_score`). -/
theorem converter_score_eq (opp_data : RawOpportunity) (user_profile : UserProfile) :
    OpportunityConverter.calculate_match_score opp_data user_profile =
      min (bonusUrgency opp_data
            (bonusSkills opp_data user_profile
              (bonusMajor opp_data user_profile
                (bonusGpa opp_data user_profile 60)))) 99 := rfl

theorem bonusGpa_ge (opp_data : RawOpportunity) (user_profile : UserProfile) (score : ℤ) :
    score ≤ bonusGpa opp_data user_profile score := by
  unfold bonusGpa; dsimp only; split_ifs <;> omega

theorem bonusMajor_ge (opp_data : RawOpportunity) (user_profile : UserProfile) (score : ℤ) :
    score ≤ bonusMajor opp_data user_profile score := by
  unfold bonusMajor; dsimp only; split_ifs <;> omega

theorem bonusSkills_ge (opp_data : RawOpportunity) (user_profile : UserProfile) (score : ℤ) :
    score ≤ bonusSkills opp_data user_profile score := by
  unfold bonusSkills; dsimp only; split_ifs <;> omega

theorem bonusUrgency_ge (opp_data : RawOpportunity) (score : ℤ) :
    score ≤ bonusUrgency opp_data score := by
  unfold bonusUrgency; dsimp only; split_ifs <;> omega

/-- The converter's score is always in `[60, 99]`: base 60, non-negative
bonuses, capped by `min · 99`. -/
theorem converter_score_range (opp_data : RawOpportunity) (user_profile : UserProfile) :
    60 ≤ OpportunityConverter.calculate_match_score opp_data user_profile ∧
    OpportunityConverter.calculate_match_score opp_data user_profile ≤ 99 := by
  rw [converter_score_eq]
  have h1 := bonusGpa_ge opp_data user_profile 60
  have h2 := bonusMajor_ge opp_data user_profile (bonusGpa opp_data user_profile 60)
  have h3 := bonusSkills_ge opp_data user_profile
    (bonusMajor opp_data user_profile (bonusGpa opp_data user_profile 60))
  have h4 := bonusUrgency_ge opp_data
    (bonusSkills opp_data user_profile
      (bonusMajor opp_data user_profile (bonusGpa opp_data user_profile 60)))
  omega

theorem determine_tier_boundaries_of_range (m : ℤ) (h : 60 ≤ m) :
    (OpportunityConverter.determine_match_tier m = "Excellent" ↔ 85 ≤ m) ∧
    (OpportunityConverter.determine_match_tier m = "Good" ↔ 70 ≤ m ∧ m < 85) ∧
    (OpportunityConverter.determine_match_tier m = "Fair" ↔ 50 ≤ m ∧ m < 70) ∧
    (OpportunityConverter.determine_match_tier m = "Poor" ↔ m < 50) := by
  unfold OpportunityConverter.determine_match_tier
  split_ifs with h1 h2 h3 <;> refine ⟨?_, ?_, ?_, ?_⟩ <;> simp <;> omega

theorem convert_match_tier (idStr : String) (opp_data : RawOpportunity)
    (user_profile : UserProfile) :
    (OpportunityConverter.convert_to_scholarship idStr opp_data user_profile).match_tier =
      OpportunityConverter.determine_match_tier
        (OpportunityConverter.calculate_match_score opp_data user_profile) := rfl

theorem convert_match_score (idStr : String) (opp_data : RawOpportunity)
    (user_profile : UserProfile) :
    (OpportunityConverter.convert_to_scholarship idStr opp_data user_profile).match_score =
      ((OpportunityConverter.calculate_match_score opp_data user_profile : ℤ) : ℚ) := rfl

/-- C2: every tier assignment — by `_filter_and_rank`'s ranking path or by
the converter — matches the assigned score against exactly the boundaries
Excellent ≥ 85, Good in [70, 85), Fair in [50, 70), Poor < 50.  (The
converter's `determine_match_tier` writes a 55 cutoff for Fair, but its
only input, the converter's `calculate_match_score`, always lies in
[60, 99], where the 55 and 50 cutoffs coincide.) -/
theorem match_tier_exact_boundaries :
    (∀ (env : Env) (profile : UserProfile) (opps : List Scholarship),
      ∀ o ∈ filter_and_rank env opps profile,
        ((o.match_tier = "Excellent" ↔ 85 ≤ o.match_score) ∧
         (o.match_tier = "Good" ↔ 70 ≤ o.match_score ∧ o.match_score < 85) ∧
         (o.match_tier = "Fair" ↔ 50 ≤ o.match_score ∧ o.match_score < 70) ∧
         (o.match_tier = "Poor" ↔ o.match_score < 50))) ∧
    (∀ (idStr : String) (opp_data : RawOpportunity) (user_profile : UserProfile),
      (((OpportunityConverter.convert_to_scholarship idStr opp_data user_profile).match_tier
          = "Excellent" ↔
        85 ≤ (OpportunityConverter.convert_to_scholarship idStr opp_data
          user_profile).match_score) ∧
       ((OpportunityConverter.convert_to_scholarship idStr opp_data user_profile).match_tier
          = "Good" ↔
        70 ≤ (OpportunityConverter.convert_to_scholarship idStr opp_data
          user_profile).match_score ∧
        (OpportunityConverter.convert_to_scholarship idStr opp_data
          user_profile).match_score < 85) ∧
       ((OpportunityConverter.convert_to_scholarship idStr opp_data user_profile).match_tier
          = "Fair" ↔
        50 ≤ (OpportunityConverter.convert_to_scholarship idStr opp_data
          user_profile).match_score ∧
        (OpportunityConverter.convert_to_scholarship idStr opp_data
          user_profile).match_score < 70) ∧
       ((OpportunityConverter.convert_to_scholarship idStr opp_data user_profile).match_tier
          = "Poor" ↔
        (OpportunityConverter.convert_to_scholarship idStr opp_data
          user_profile).match_score < 50))) := by
  constructor
  · intro env profile opps o ho
    rw [mem_filter_and_rank] at ho
    obtain ⟨x, _, rfl⟩ := List.mem_map.mp ho.1
    rw [rescore_match_tier, rescore_match_score]
    exact tier_ite_boundaries (calculate_match_score env x profile)
  · intro idStr opp_data user_profile
    have hrange := converter_score_range opp_data user_profile
    have ht := determine_tier_boundaries_of_range
      (OpportunityConverter.calculate_match_score opp_data user_profile) hrange.1
    rw [convert_match_tier, convert_match_score]
    refine ⟨?_, ?_, ?_, ?_⟩
    · rw [ht.1]; norm_cast
    · rw [ht.2.1]; norm_cast
    · rw [ht.2.2.1]; norm_cast
    · rw [ht.2.2.2]; norm_cast

/-! ### Eligibility hard gate (C4) -/

theorem score_eligibility_grade_mismatch (opp : Scholarship) (profile : UserProfile)
    (hne : opp.eligibility.grades_eligible ≠ [])
    (hnm : profile.academic_status ∉ opp.eligibility.grades_eligible) :
    score_eligibility opp profile = 0 := by
  unfold score_eligibility
  dsimp only
  split_ifs with h
  all_goals
    first
    | rfl
    | (exfalso
       apply h
       simp [List.isEmpty_iff, hne, hnm])

/-- C4: whenever the eligibility component is below 0.5 — in particular
whenever the profile's academic status is missing from a non-empty
`grades_eligible` list — `calculate_match_score` returns 0 and the
(rescored) opportunity appears in no `_filter_and_rank` output. -/
theorem eligibility_hard_gate (env : Env) (opp : Scholarship) (profile : UserProfile)
    (h : score_eligibility opp profile < 1/2 ∨
      (opp.eligibility.grades_eligible ≠ [] ∧
       profile.academic_status ∉ opp.eligibility.grades_eligible)) :
    calculate_match_score env opp profile = 0 ∧
    ∀ opps : List Scholarship, rescore env profile opp ∉ filter_and_rank env opps profile := by
  have hlt : score_eligibility opp profile < 1/2 := by
    rcases h with h | ⟨hne, hnm⟩
    · exact h
    · rw [score_eligibility_grade_mismatch opp profile hne hnm]; norm_num
  have hzero : calculate_match_score env opp profile = 0 := by
    unfold calculate_match_score
    dsimp only
    rw [if_pos hlt]
  refine ⟨hzero, fun opps hmem => ?_⟩
  rw [mem_filter_and_rank] at hmem
  have hpos := hmem.2
  rw [rescore_match_score, hzero] at hpos
  exact lt_irrefl 0 hpos

def gateOpp : Scholarship :=
  { id := "gates-1", name := "Gates Scholarship", organization := "Gates Foundation",
    amount := 40000, deadline := "", deadline_type := "rolling",
    eligibility := { grades_eligible := ["High School Senior"] },
    requirements := {}, match_score := 0, match_tier := "Poor", priority_level := "LOW",
    tags := [], description := "", competition_level := "Medium",
    source_url := "", source_type := "scraped" }

def gateProfile : UserProfile := { name := "Grad", academic_status := "Graduate" }

def noDeadlineEnv : Env := ⟨fun _ => none⟩

/-- C4 witness: the spec's Graduate profile against a
High-School-Senior-only opportunity scores 0 and is never ranked. -/
theorem eligibility_hard_gate_witness :
    calculate_match_score noDeadlineEnv gateOpp gateProfile = 0 ∧
    ∀ opps : List Scholarship,
      rescore noDeadlineEnv gateProfile gateOpp ∉
        filter_and_rank noDeadlineEnv opps gateProfile :=
  eligibility_hard_gate noDeadlineEnv gateOpp gateProfile (Or.inr (by decide))

/-! ### The background job update (C1) -/

theorem save_scholarship_foldl_jobs (l : List Scholarship) (db : Database) :
    (l.foldl save_scholarship db).discovery_jobs = db.discovery_jobs := by
  induction l generalizing db with
  | nil => rfl
  | cons s rest ih => simpa using ih (save_scholarship db s)

/-- C1 (code bug): `run_background_discovery` never records a terminal
status.  `FirebaseDB` defines `update_discovery_job`, not
`update_job_status`, so the call `db.update_job_status(...)` raises
`AttributeError` on the success path, and again inside the `except`
handler; every slow-path run leaves the job-record store exactly as it was
— the job stays `processing` — and the exception escapes the task. -/
theorem run_background_discovery_never_sets_status (env : Env) (mkId : Nat → String)
    (job_id user_id : String) (user_profile : UserProfile)
    (adapter_results : List AdapterOutcome) (db : Database) :
    "update_job_status" ∉ firebaseDBMethods ∧
    (run_background_discovery env mkId job_id user_id user_profile adapter_results db).2
      = some "AttributeError: FirebaseDB object has no attribute update_job_status" ∧
    (run_background_discovery env mkId job_id user_id user_profile
        adapter_results db).1.discovery_jobs
      = db.discovery_jobs := by
  refine ⟨by decide, rfl, ?_⟩
  unfold run_background_discovery update_job_status_call
  dsimp only [save_user_matches]
  exact save_scholarship_foldl_jobs _ db

/-! ### Job tracker overwrites (C3) -/

theorem lookup_dictSet {α : Type} (k : String) (v : α) (d : List (String × α)) :
    (dictSet k v d).lookup k = some v := by
  induction d with
  | nil => simp [dictSet]
  | cons p rest ih =>
    obtain ⟨k', v'⟩ := p
    by_cases h : k' = k
    · simp [dictSet, h]
    · have hb : (k == k') = false := beq_eq_false_iff_ne.mpr (Ne.symm h)
      simp [dictSet, h, List.lookup, hb, ih]

/-- The record of one discovery job of user `user-1`, as the tracker
stores it. -/
def jobRec (status : String) (progress : ℚ) (found : Nat) : JobRecord :=
  { user_id := "user-1", status := status, progress := progress, scholarships_found := found }

/-- C3 counterexample: the job tracker accepts a later update that lowers
progress from 100 to 10 and moves the job from the terminal `completed`
status back to `processing` — both updates return `ok`. -/
theorem job_update_counterexample :
    update_discovery_job (create_discovery_job [] "user-1" "job-1") "job-1" "completed" 100 5 =
      .ok [("job-1", jobRec "completed" 100 5)] ∧
    update_discovery_job [("job-1", jobRec "completed" 100 5)] "job-1" "processing" 10 0 =
      .ok [("job-1", jobRec "processing" 10 0)] ∧
    (10 : ℚ) < 100 ∧ ("processing" : String) ≠ "completed" :=
  ⟨rfl, rfl, by norm_num, by decide⟩

/-- A job record with the four tracked fields. -/
def mkJobRecord (uid status : String) (progress : ℚ) (found : Nat) : JobRecord :=
  { user_id := uid, status := status, progress := progress, scholarships_found := found }

/-- C3 amended: `update_discovery_job` is last-writer-wins — for an
existing job it unconditionally records exactly the requested status,
progress and count (keeping `user_id`); no monotonicity or terminal-state
guard exists, so the recorded values are whatever the latest update
passed. -/
theorem update_discovery_job_last_writer_wins (store : List (String × JobRecord))
    (job_id status : String) (progress : ℚ) (scholarships_found : Nat) (r : JobRecord)
    (h : store.lookup job_id = some r) :
    update_discovery_job store job_id status progress scholarships_found =
      .ok (dictSet job_id (mkJobRecord r.user_id status progress scholarships_found) store) ∧
    (dictSet job_id (mkJobRecord r.user_id status progress scholarships_found)
        store).lookup job_id =
      some (mkJobRecord r.user_id status progress scholarships_found) := by
  constructor
  · unfold update_discovery_job
    rw [h]
    rfl
  · exact lookup_dictSet job_id _ store

/-- C3 witness: a concrete overwrite of a freshly created job. -/
theorem update_discovery_job_last_writer_wins_witness :
    update_discovery_job (create_discovery_job [] "user-1" "job-9") "job-9" "failed" 7 3 =
      .ok (dictSet "job-9" (mkJobRecord "user-1" "failed" 7 3)
        (create_discovery_job [] "user-1" "job-9")) ∧
    (dictSet "job-9" (mkJobRecord "user-1" "failed" 7 3)
        (create_discovery_job [] "user-1" "job-9")).lookup "job-9" =
      some (mkJobRecord "user-1" "failed" 7 3) :=
  update_discovery_job_last_writer_wins (create_discovery_job [] "user-1" "job-9")
    "job-9" "failed" 7 3 (mkJobRecord "user-1" "processing" 0 0) rfl

/-! ### AI parser fallback (C7) -/

/-- C7: when the fence-stripped response fails to parse or validate,
`_parse_ai_response` raises nothing and returns the neutral default:
score 50, tier `Fair`, priority `MEDIUM`, and the pydantic-default (empty)
eligibility and requirements. -/
theorem parse_ai_response_fallback (decode : String → Option AIEnrichmentResponse)
    (response_text : String)
    (h : decode (stripCodeFences response_text) = none) :
    parse_ai_response decode response_text = defaultEnrichment ∧
    (parse_ai_response decode response_text).match_score = 50 ∧
    (parse_ai_response decode response_text).match_tier = "Fair" ∧
    (parse_ai_response decode response_text).priority_level = "MEDIUM" ∧
    (parse_ai_response decode response_text).eligibility = {} ∧
    (parse_ai_response decode response_text).requirements = {} := by
  unfold parse_ai_response
  rw [h]
  exact ⟨rfl, rfl, rfl, rfl, rfl, rfl⟩

/-- C7 witness: a decoder rejecting everything, on a plain-text reply. -/
theorem parse_ai_response_fallback_witness :
    parse_ai_response (fun _ => none) "this is not JSON" = defaultEnrichment ∧
    (parse_ai_response (fun _ => none) "this is not JSON").match_score = 50 ∧
    (parse_ai_response (fun _ => none) "this is not JSON").match_tier = "Fair" ∧
    (parse_ai_response (fun _ => none) "this is not JSON").priority_level = "MEDIUM" ∧
    (parse_ai_response (fun _ => none) "this is not JSON").eligibility = {} ∧
    (parse_ai_response (fun _ => none) "this is not JSON").requirements = {} :=
  parse_ai_response_fallback (fun _ => none) "this is not JSON" rfl

/-! ### Rate limiter refusal (C8) -/

/-- C8: once the hourly cap has been consumed and the window has not
expired, the next enrichment call on a cache miss is refused —
`enrich_scholarship` returns `none` — and the Generative Text Port
(`model.generate_content`) is not invoked. -/
theorem rate_limit_refusal (now ttl_hours : ℤ)
    (decode : String → Option AIEnrichmentResponse) (cache_key response_text : String)
    (st : AIServiceState)
    (hmiss : get_cached_enrichment now ttl_hours st.memory_cache cache_key = none)
    (hcap : st.rate_limiter.limit ≤ st.rate_limiter.count)
    (hwin : now - st.rate_limiter.window_start ≤ 3600) :
    (enrich_scholarship now ttl_hours decode cache_key response_text st).1 = none ∧
    (enrich_scholarship now ttl_hours decode cache_key response_text st).2.generate_calls =
      st.generate_calls := by
  have hcheck : check_rate_limit now st.rate_limiter = (false, st.rate_limiter) := by
    unfold check_rate_limit
    rw [if_neg (by omega : ¬ 3600 < now - st.rate_limiter.window_start)]
    rw [if_pos hcap]
  unfold enrich_scholarship
  rw [hmiss]
  dsimp only
  rw [hcheck]
  exact ⟨rfl, rfl⟩

def cappedState : AIServiceState :=
  { memory_cache := []
    rate_limiter := { count := 2, window_start := 0, limit := 2 }
    generate_calls := 5 }

/-- C8 witness: a limiter at its cap of 2, mid-window. -/
theorem rate_limit_refusal_witness :
    (enrich_scholarship 100 168 (fun _ => none) "key" "resp" cappedState).1 = none ∧
    (enrich_scholarship 100 168 (fun _ => none) "key" "resp" cappedState).2.generate_calls =
      cappedState.generate_calls :=
  rate_limit_refusal 100 168 (fun _ => none) "key" "resp" cappedState rfl
    (by decide) (by decide)

/-! ### Deadline type (C9) -/

def rollingRaw : RawOpportunity :=
  { deadline := some "2026-06-01", deadline_type := some "rolling" }

def someProfile : UserProfile := { name := "U", academic_status := "Undergraduate" }

/-- C9 counterexample: a raw opportunity carrying both a non-empty
deadline and `deadline_type: "rolling"` converts to an Opportunity with
`deadline_type = "rolling"` and `deadline = "2026-06-01" ≠ ""`, so
`rolling` does not imply an empty deadline. -/
theorem deadline_type_counterexample :
    (OpportunityConverter.convert_to_scholarship "id-1" rollingRaw
      someProfile).deadline_type = "rolling" ∧
    (OpportunityConverter.convert_to_scholarship "id-1" rollingRaw
      someProfile).deadline = "2026-06-01" ∧
    ("2026-06-01" : String) ≠ "" :=
  ⟨rfl, rfl, by decide⟩

/-- C9 amended: the converter sets `deadline_type = "rolling"` iff the
deadline string is empty **or** the raw `deadline_type` value lower-cases
to `"rolling"`, and `"fixed"` otherwise; an empty deadline still always
yields `rolling`. -/
theorem deadline_type_rule (idStr : String) (opp_data : RawOpportunity)
    (user_profile : UserProfile) :
    ((OpportunityConverter.convert_to_scholarship idStr opp_data
        user_profile).deadline_type = "rolling" ↔
      ((OpportunityConverter.convert_to_scholarship idStr opp_data
          user_profile).deadline = "" ∨
        pyLower (opp_data.deadline_type.getD "") = "rolling")) ∧
    ((OpportunityConverter.convert_to_scholarship idStr opp_data
        user_profile).deadline_type = "fixed" ↔
      ¬((OpportunityConverter.convert_to_scholarship idStr opp_data
          user_profile).deadline = "" ∨
        pyLower (opp_data.deadline_type.getD "") = "rolling")) ∧
    (OpportunityConverter.convert_to_scholarship idStr opp_data user_profile).deadline =
      opp_data.deadline.getD "" := by
  have hdt : (OpportunityConverter.convert_to_scholarship idStr opp_data
      user_profile).deadline_type =
      (if opp_data.deadline.getD "" = "" ∨ pyLower (opp_data.deadline_type.getD "") = "rolling"
       then "rolling" else "fixed") := rfl
  have hdl : (OpportunityConverter.convert_to_scholarship idStr opp_data
      user_profile).deadline = opp_data.deadline.getD "" := rfl
  rw [hdt, hdl]
  refine ⟨?_, ?_, rfl⟩ <;> split_ifs with h <;> simp [h]

/-! ### Fast path leaves no job record (C10) -/

/-- C10: when the fast (cached) path is taken, `start_discovery_job`
returns `completed` with the freshly generated `job_id`, no job record is
created for it (the job store is untouched), and a subsequent
`get_job_status` with that `job_id` returns `none`. -/
theorem fast_path_returns_unknown_job_id (env : Env) (user_id job_id : String)
    (user_profile : UserProfile) (db : Database)
    (hfresh : db.discovery_jobs.lookup job_id = none)
    (hmatched : filter_and_rank env (get_all_scholarships db) user_profile ≠ []) :
    (start_discovery_job env user_id job_id user_profile db).1.status = "completed" ∧
    (start_discovery_job env user_id job_id user_profile db).1.job_id = some job_id ∧
    (start_discovery_job env user_id job_id user_profile db).2.discovery_jobs =
      db.discovery_jobs ∧
    get_job_status (start_discovery_job env user_id job_id user_profile db).2 job_id =
      none := by
  have hcache : get_all_scholarships db ≠ [] := by
    intro h0
    exact hmatched (by rw [h0]; simp [filter_and_rank])
  have hc1 : (!(get_all_scholarships db).isEmpty) = true := by
    simpa [List.isEmpty_iff] using hcache
  have hc2 : (!(filter_and_rank env (get_all_scholarships db) user_profile).isEmpty) = true := by
    simpa [List.isEmpty_iff] using hmatched
  unfold start_discovery_job
  simp only [hc1, hc2, if_true]
  refine ⟨by trivial, by trivial, by trivial, ?_⟩
  unfold get_job_status get_discovery_job
  dsimp only [save_user_matches]
  rw [hfresh]

def cachedScholarship : Scholarship :=
  { id := "sch-1", name := "Open Award", organization := "Org", amount := 0,
    deadline := "2026-06-01", deadline_type := "fixed", eligibility := {},
    requirements := {}, match_score := 0, match_tier := "Poor", priority_level := "LOW",
    tags := [], description := "", competition_level := "Medium", source_url := "",
    source_type := "scraped" }

def cachedDb : Database :=
  { scholarships := [("sch-1", cachedScholarship)], user_matches := [], discovery_jobs := [] }

def day30Env : Env := ⟨fun _ => some 30⟩

def wProfile : UserProfile := { name := "W", academic_status := "Undergraduate" }

theorem cached_match_score :
    calculate_match_score day30Env cachedScholarship wProfile = 80 := by
  norm_num [calculate_match_score, score_eligibility, score_interests, score_urgency,
    score_value, score_effort, estimate_effort, pyRound2, truthyNum, truthyStr, truthyList,
    day30Env, cachedScholarship, wProfile]

/-- C10 witness: one cached fully-open scholarship; the fast path answers
`completed` with a job id that `get_job_status` cannot find. -/
theorem fast_path_returns_unknown_job_id_witness :
    (start_discovery_job day30Env "user-1" "job-7" wProfile cachedDb).1.status = "completed" ∧
    (start_discovery_job day30Env "user-1" "job-7" wProfile cachedDb).1.job_id = some "job-7" ∧
    (start_discovery_job day30Env "user-1" "job-7" wProfile cachedDb).2.discovery_jobs =
      cachedDb.discovery_jobs ∧
    get_job_status (start_discovery_job day30Env "user-1" "job-7" wProfile cachedDb).2
      "job-7" = none :=
  fast_path_returns_unknown_job_id day30Env "user-1" "job-7" wProfile cachedDb rfl (by
    have hmem : rescore day30Env wProfile cachedScholarship ∈
        filter_and_rank day30Env (get_all_scholarships cachedDb) wProfile := by
      rw [mem_filter_and_rank]
      refine ⟨List.mem_map_of_mem _ (by simp [get_all_scholarships, cachedDb]), ?_⟩
      rw [rescore_match_score, cached_match_score]
      norm_num
    exact List.ne_nil_of_mem hmem)

end ScholarStream
